import Mathlib

/-!
Verification of the opa-client permission-query client.

The Go source under verification consists of the data model (Config,
PermissionOptions, the wire request/response shapes, Action), the
network-backed HTTPClient with its two query operations
QueryPermissionsMultiResources and QueryPermissions, and the NopClient.
The helper functions retryUntilSuccessful, sendHTTPRequest and the
UserAgent constant are repository code not included in the sources given;
those are modelled from the specification, marked below.

Modelling decisions:
- Go strings are Lean String; Go slices are Lean List; a Go pointer that
  may be nil is Option; a Go (value, error) return is a pair whose error
  component is Option String (none = nil error).
- A nil-pointer dereference aborts the Go function with a runtime panic;
  we model a function outcome as GoResult: either a normal return or a
  panic.
- json.Marshal and json.Unmarshal are external library calls; inside the
  query pipeline they are oracle parameters (the code only threads their
  results through). The structural content of json.Marshal on the request
  types, including the omitempty struct tags, is modelled concretely by
  marshalQueryRequest below.
- The transport call sendHTTPRequest is an oracle from the attempt index
  to either a response body or an error; the retrier invokes it once per
  probe, matching the closure in the source.
- Effect counters (marshalCalls, retrierCalls, transportAttempts,
  bypassTaken) instrument the embedding so that claims about "no network
  call" and "not retried" are statable; they change no result value.
-/

set_option autoImplicit false

namespace OpaClient

/-- Go type Action string, with the enumerated constants. -/
abbrev Action := String

def ActionRead : Action := "read"

def ActionList : Action := "list"

def ActionCreate : Action := "create"

def ActionUpdate : Action := "update"

def ActionDelete : Action := "delete"

/-- PermissionOptions from types.go: per-call member ids, the
RaiseForbidden flag (accepted but not consumed by the query path) and the
per-call override-header value. -/
structure PermissionOptions where
  MemberIds : List String
  RaiseForbidden : Bool
  OverrideHeaderValue : String
deriving Repr, DecidableEq

/-- PermissionQueryRequestInput from types.go; every field carries a JSON
tag with omitempty. -/
structure PermissionQueryRequestInput where
  Resource : String
  Action : String
  Ids : List String
deriving Repr, DecidableEq

/-- PermissionQueryRequest from types.go: the single-query body wrapper
with tag json:"input,omitempty". -/
structure PermissionQueryRequest where
  Input : PermissionQueryRequestInput
deriving Repr, DecidableEq

/-- PermissionFilterRequestInput from types.go; every field carries a JSON
tag with omitempty. -/
structure PermissionFilterRequestInput where
  Resources : List String
  Action : String
  Ids : List String
deriving Repr, DecidableEq

/-- PermissionFilterRequest from types.go: the filter-query body wrapper
with tag json:"input,omitempty". -/
structure PermissionFilterRequest where
  Input : PermissionFilterRequestInput
deriving Repr, DecidableEq

/-- PermissionQueryResponse from types.go: {"result": bool}. -/
structure PermissionQueryResponse where
  Result : Bool
deriving Repr, DecidableEq

/-- PermissionFilterResponse from types.go: {"result": [string, ...]},
the allowed subset of the requested resources. -/
structure PermissionFilterResponse where
  Result : List String
deriving Repr, DecidableEq

/-- The fields of HTTPClient that the query operations read. The logger
and the underlying http.Client (timeout, TLS transport) live behind the
transport oracle and the ignored logging statements. -/
structure HTTPClient where
  address : String
  permissionQueryPath : String
  permissionFilterPath : String
  verbose : Bool
  overrideHeaderValue : String
deriving Repr, DecidableEq

/-! ## JSON codec model

encoding/json on the request structs above: fields are emitted in
declaration order; a field tagged omitempty is dropped when its value is
empty (empty string, length-zero slice whether nil or not); a
struct-typed field is never considered empty by omitempty, so the
"input" key is always present. Arrays in these bodies only ever hold
strings, so the value grammar needs strings, booleans and string arrays.
-/

/-- A JSON value as it occurs inside the request bodies of this client:
a string, a boolean, or an array of strings. -/
inductive JsonValue where
  | str : String → JsonValue
  | bool : Bool → JsonValue
  | strArr : List String → JsonValue
deriving Repr, DecidableEq

/-- json.Marshal on PermissionQueryRequestInput: the field list of the
inner object, with omitempty dropping empty-string and empty-slice
fields, in struct declaration order (resource, action, ids). -/
def marshalQueryInput (i : PermissionQueryRequestInput) :
    List (String × JsonValue) :=
  (if i.Resource = "" then [] else [("resource", JsonValue.str i.Resource)]) ++
  (if i.Action = "" then [] else [("action", JsonValue.str i.Action)]) ++
  (if i.Ids = [] then [] else [("ids", JsonValue.strArr i.Ids)])

/-- json.Marshal on PermissionQueryRequest: a one-field object. The
"input" field is tagged omitempty, but encoding/json never treats a
struct value as empty, so the key is always emitted. -/
def marshalQueryRequest (r : PermissionQueryRequest) :
    List (String × List (String × JsonValue)) :=
  [("input", marshalQueryInput r.Input)]

/-- json.Marshal on PermissionFilterRequestInput, with the same omitempty
behaviour (resources, action, ids). -/
def marshalFilterInput (i : PermissionFilterRequestInput) :
    List (String × JsonValue) :=
  (if i.Resources = [] then [] else [("resources", JsonValue.strArr i.Resources)]) ++
  (if i.Action = "" then [] else [("action", JsonValue.str i.Action)]) ++
  (if i.Ids = [] then [] else [("ids", JsonValue.strArr i.Ids)])

/-- json.Marshal on PermissionFilterRequest: a one-field object, the
"input" key always emitted. -/
def marshalFilterRequest (r : PermissionFilterRequest) :
    List (String × List (String × JsonValue)) :=
  [("input", marshalFilterInput r.Input)]

/-- The request value QueryPermissions builds at types.go lines 299-303:
PermissionQueryRequest{Input: {resource, string(action), MemberIds}}. -/
def queryRequestOf (resource : String) (action : Action)
    (opts : PermissionOptions) : PermissionQueryRequest :=
  ⟨⟨resource, action, opts.MemberIds⟩⟩

/-- The request value QueryPermissionsMultiResources builds at types.go
lines 216-220. -/
def filterRequestOf (resources : List String) (action : Action)
    (opts : PermissionOptions) : PermissionFilterRequest :=
  ⟨⟨resources, action, opts.MemberIds⟩⟩

/-! ## Bounded retrier and transport

retryUntilSuccessful and sendHTTPRequest are repository code that is not
among the given sources; only their call sites are. They are modelled
from the specification.
-/

/-- Modelled from the spec: sendHTTPRequest (the Transport Invoker,
spec 4.5) performs one request/response exchange and classifies any
network error or unexpected status as a failure. It is missing from the
given sources, so it is an oracle: for each invocation (numbered by the
attempt index) it yields either the response body or an error. The
invoker itself performs no retrying. -/
def Transport : Type := Nat → Except String String

/-- Modelled from the spec: retryUntilSuccessful (the Bounded Retrier,
spec 4.4) takes a total timeout, a poll interval and a boolean probe,
and repeatedly invokes the probe at the given interval until it reports
success or the timeout elapses, reporting overall success or failure.
Discrete time model: probes fire at times 0, interval, 2*interval, ...
strictly before the timeout, so timeout / interval invocations happen in
the window (6 for the 6-second window with 1-second interval used by
both query paths). The probe threads explicit state sigma, standing for
the variables the Go closure mutates; the result carries the final
state, the overall error (none on success) and the number of probe
invocations. -/
def retryLoop {σ : Type} (probe : σ → σ × Bool) :
    Nat → σ → σ × Option String × Nat
  | 0, s => (s, some "Failed to execute function in given timeout", 0)
  | n + 1, s =>
    match probe s with
    | (s2, true) => (s2, none, 1)
    | (s2, false) =>
      let r := retryLoop probe n s2
      (r.1, r.2.1, r.2.2 + 1)

/-- Modelled from the spec: the entry point of the Bounded Retrier, see
retryLoop. -/
def retryUntilSuccessful {σ : Type} (timeoutSec intervalSec : Nat)
    (probe : σ → σ × Bool) (s : σ) : σ × Option String × Nat :=
  retryLoop probe (timeoutSec / intervalSec) s

/-- The state of the retry closure in both query paths: the next attempt
index and the responseBody variable the closure assigns (none models the
nil byte slice). -/
structure ProbeState where
  attempts : Nat
  responseBody : Option String
deriving Repr, DecidableEq

/-- The probe closure both query paths pass to retryUntilSuccessful
(types.go lines 235-249 and 317-331): perform one transport attempt,
store the response body, report success; on error report failure (the
warning log does not alter control flow). -/
def queryProbe (send : Transport) (s : ProbeState) : ProbeState × Bool :=
  match send s.attempts with
  | .ok body => (⟨s.attempts + 1, some body⟩, true)
  | .error _ => (⟨s.attempts + 1, none⟩, false)

/-- errors.Wrap(err, message): the wrapped error message with its cause. -/
def wrapErr (message cause : String) : String :=
  message ++ ": " ++ cause

/-- Outcome of a Go function call: a normal return or a runtime panic
(here only ever the nil-pointer dereference). -/
inductive GoResult (α : Type) where
  | ret : α → GoResult α
  | panic : GoResult α
deriving Repr, DecidableEq

/-! ## The query operations

Each operation returns its Go result pair plus instrumentation: whether
the bypass branch was taken, how many times json.Marshal ran, how many
times the retrier was entered, and how many transport attempts were
made. json.Marshal and json.Unmarshal are oracle parameters. -/

/-- Result of QueryPermissionsMultiResources: the Go pair
([]bool, error) where the slice may be nil (none), under GoResult, with
effect counters. -/
structure MultiOutcome where
  ret : GoResult (Option (List Bool) × Option String)
  bypassTaken : Bool
  marshalCalls : Nat
  retrierCalls : Nat
  transportAttempts : Nat
deriving Repr, DecidableEq

/-- Result of QueryPermissions: the Go pair (bool, error) under
GoResult, with effect counters. -/
structure SingleOutcome where
  ret : GoResult (Bool × Option String)
  bypassTaken : Bool
  marshalCalls : Nat
  retrierCalls : Nat
  transportAttempts : Nat
deriving Repr, DecidableEq

/-- The network path of QueryPermissionsMultiResources (types.go lines
209-279), entered when the bypass branch is not taken: build the filter
request from permissionOptions.MemberIds (dereferencing the pointer, so
a nil pointer panics here), marshal it, run the transport under the
retrier with a 6-second window and 1-second interval, unmarshal the
response, and derive the positional results by membership of each
requested resource in the returned allowed subset. -/
def multiNetwork (marshal : PermissionFilterRequest → Except String String)
    (send : Transport)
    (unmarshal : String → Except String PermissionFilterResponse)
    (resources : List String) (action : Action)
    (permissionOptions : Option PermissionOptions) : MultiOutcome :=
  match permissionOptions with
  | none =>
    { ret := .panic, bypassTaken := false, marshalCalls := 0,
      retrierCalls := 0, transportAttempts := 0 }
  | some opts =>
    match marshal (filterRequestOf resources action opts) with
    | .error e =>
      { ret := .ret (none, some (wrapErr "Failed to generate request body" e)),
        bypassTaken := false, marshalCalls := 1, retrierCalls := 0,
        transportAttempts := 0 }
    | .ok _requestBody =>
      let r := retryUntilSuccessful 6 1 (queryProbe send) ⟨0, none⟩
      match r.2.1 with
      | some e =>
        { ret := .ret (none, some (wrapErr "Failed to send HTTP request to OPA" e)),
          bypassTaken := false, marshalCalls := 1, retrierCalls := 1,
          transportAttempts := r.1.attempts }
      | none =>
        match unmarshal (r.1.responseBody.getD "") with
        | .error e =>
          { ret := .ret (none, some (wrapErr "Failed to unmarshal response body" e)),
            bypassTaken := false, marshalCalls := 1, retrierCalls := 1,
            transportAttempts := r.1.attempts }
        | .ok resp =>
          { ret := .ret (some (resources.map (fun res => resp.Result.contains res)), none),
            bypassTaken := false, marshalCalls := 1, retrierCalls := 1,
            transportAttempts := r.1.attempts }

/-- QueryPermissionsMultiResources (types.go lines 190-280). The bypass
condition uses the short-circuit of the Go && operator: with an empty
configured override value the options pointer is not dereferenced here;
when taken, the pre-allocated all-false result slice is set all-true and
returned with no network call. -/
def QueryPermissionsMultiResources (c : HTTPClient)
    (marshal : PermissionFilterRequest → Except String String)
    (send : Transport)
    (unmarshal : String → Except String PermissionFilterResponse)
    (resources : List String) (action : Action)
    (permissionOptions : Option PermissionOptions) : MultiOutcome :=
  if c.overrideHeaderValue ≠ "" then
    match permissionOptions with
    | none =>
      { ret := .panic, bypassTaken := false, marshalCalls := 0,
        retrierCalls := 0, transportAttempts := 0 }
    | some opts =>
      if opts.OverrideHeaderValue = c.overrideHeaderValue then
        { ret := .ret (some (List.replicate resources.length true), none),
          bypassTaken := true, marshalCalls := 0, retrierCalls := 0,
          transportAttempts := 0 }
      else
        multiNetwork marshal send unmarshal resources action (some opts)
  else
    multiNetwork marshal send unmarshal resources action permissionOptions

/-- The network path of QueryPermissions (types.go lines 292-355):
build the single-resource request (dereferencing the options pointer),
marshal, retried transport, unmarshal {"result": bool}, and return the
decoded boolean. -/
def singleNetwork (marshal : PermissionQueryRequest → Except String String)
    (send : Transport)
    (unmarshal : String → Except String PermissionQueryResponse)
    (resource : String) (action : Action)
    (permissionOptions : Option PermissionOptions) : SingleOutcome :=
  match permissionOptions with
  | none =>
    { ret := .panic, bypassTaken := false, marshalCalls := 0,
      retrierCalls := 0, transportAttempts := 0 }
  | some opts =>
    match marshal (queryRequestOf resource action opts) with
    | .error e =>
      { ret := .ret (false, some (wrapErr "Failed to generate request body" e)),
        bypassTaken := false, marshalCalls := 1, retrierCalls := 0,
        transportAttempts := 0 }
    | .ok _requestBody =>
      let r := retryUntilSuccessful 6 1 (queryProbe send) ⟨0, none⟩
      match r.2.1 with
      | some e =>
        { ret := .ret (false, some (wrapErr "Failed to send HTTP request to OPA" e)),
          bypassTaken := false, marshalCalls := 1, retrierCalls := 1,
          transportAttempts := r.1.attempts }
      | none =>
        match unmarshal (r.1.responseBody.getD "") with
        | .error e =>
          { ret := .ret (false, some (wrapErr "Failed to unmarshal response body" e)),
            bypassTaken := false, marshalCalls := 1, retrierCalls := 1,
            transportAttempts := r.1.attempts }
        | .ok resp =>
          { ret := .ret (resp.Result, none), bypassTaken := false,
            marshalCalls := 1, retrierCalls := 1,
            transportAttempts := r.1.attempts }

/-- QueryPermissions (types.go lines 282-355), with the same
short-circuit bypass check as the multi-resource path. -/
def QueryPermissions (c : HTTPClient)
    (marshal : PermissionQueryRequest → Except String String)
    (send : Transport)
    (unmarshal : String → Except String PermissionQueryResponse)
    (resource : String) (action : Action)
    (permissionOptions : Option PermissionOptions) : SingleOutcome :=
  if c.overrideHeaderValue ≠ "" then
    match permissionOptions with
    | none =>
      { ret := .panic, bypassTaken := false, marshalCalls := 0,
        retrierCalls := 0, transportAttempts := 0 }
    | some opts =>
      if opts.OverrideHeaderValue = c.overrideHeaderValue then
        { ret := .ret (true, none), bypassTaken := true, marshalCalls := 0,
          retrierCalls := 0, transportAttempts := 0 }
      else
        singleNetwork marshal send unmarshal resource action (some opts)
  else
    singleNetwork marshal send unmarshal resource action permissionOptions

/-- QueryPermissionsMultiResources of the NopClient (nop.go): allow
everything, no effects. -/
def NopQueryPermissionsMultiResources (resources : List String)
    (_action : Action) (_permissionOptions : Option PermissionOptions) :
    Option (List Bool) × Option String :=
  (some (List.replicate resources.length true), none)

/-- QueryPermissions of the NopClient (nop.go): always true. -/
def NopQueryPermissions (_resource : String) (_action : Action)
    (_permissionOptions : Option PermissionOptions) : Bool × Option String :=
  (true, none)

/-! ## Concrete test doubles

Fixtures used by the witness theorems: a client without a configured
override value, one with the value "secret", and oracle instances for
the marshal, transport and unmarshal parameters. -/

/-- A client whose configured override-header value is empty. -/
def cNoOverride : HTTPClient :=
  ⟨"http://opa:8181", "/v1/data/authz/allow", "/v1/data/authz/filter_allowed", false, ""⟩

/-- A client whose configured override-header value is "secret". -/
def cSecret : HTTPClient :=
  ⟨"http://opa:8181", "/v1/data/authz/allow", "/v1/data/authz/filter_allowed", false, "secret"⟩

/-- Options with no member ids and an empty override value. -/
def optsPlain : PermissionOptions := ⟨[], false, ""⟩

/-- Options carrying the override value "secret". -/
def optsSecret : PermissionOptions := ⟨[], false, "secret"⟩

/-- Options carrying one member id and an empty override value. -/
def optsIds : PermissionOptions := ⟨["id1"], false, ""⟩

/-- A filter-request marshal oracle that succeeds. -/
def marshalOkF : PermissionFilterRequest → Except String String :=
  fun _ => Except.ok "requestBody"

/-- A single-request marshal oracle that succeeds. -/
def marshalOkQ : PermissionQueryRequest → Except String String :=
  fun _ => Except.ok "requestBody"

/-- A filter-request marshal oracle that fails. -/
def marshalFailF : PermissionFilterRequest → Except String String :=
  fun _ => Except.error "marshal boom"

/-- A single-request marshal oracle that fails. -/
def marshalFailQ : PermissionQueryRequest → Except String String :=
  fun _ => Except.error "marshal boom"

/-- A transport that succeeds on every attempt. -/
def sendOk : Transport := fun _ => Except.ok "responseBody"

/-- A transport that fails on every attempt. -/
def sendFail : Transport := fun _ => Except.error "connection refused"

/-- A transport that fails on the first two attempts, then succeeds. -/
def sendFlaky : Transport :=
  fun k => if k < 2 then Except.error "connection refused" else Except.ok "responseBody"

/-- A filter unmarshal oracle decoding the allowed subset ["a", "c"]. -/
def unmarshalAC : String → Except String PermissionFilterResponse :=
  fun _ => Except.ok ⟨["a", "c"]⟩

/-- A filter unmarshal oracle decoding ["z", "c", "a", "a"]. -/
def unmarshalZCAA : String → Except String PermissionFilterResponse :=
  fun _ => Except.ok ⟨["z", "c", "a", "a"]⟩

/-- A single unmarshal oracle decoding {"result": false}. -/
def unmarshalFalse : String → Except String PermissionQueryResponse :=
  fun _ => Except.ok ⟨false⟩

/-- A filter unmarshal oracle that fails. -/
def unmarshalFailF : String → Except String PermissionFilterResponse :=
  fun _ => Except.error "invalid character"

/-- A single unmarshal oracle that fails. -/
def unmarshalFailQ : String → Except String PermissionQueryResponse :=
  fun _ => Except.error "invalid character"

/-! ## Retry loop characterization -/

/-- When every transport attempt in the remaining budget fails, the
retry loop exhausts the budget, reports the timeout error and has made
exactly that many attempts. -/
theorem retryLoop_all_fail (send : Transport) :
    ∀ (n k : Nat) (rb : Option String),
      (∀ j, j < n → ∃ e, send (k + j) = Except.error e) →
      retryLoop (queryProbe send) n ⟨k, rb⟩ =
        (⟨k + n, if n = 0 then rb else none⟩,
          some "Failed to execute function in given timeout", n) := by
  intro n
  induction n with
  | zero => intro k rb _; simp [retryLoop]
  | succ m ih =>
    intro k rb h
    obtain ⟨e, he⟩ := h 0 (Nat.succ_pos m)
    rw [Nat.add_zero] at he
    have hrec := ih (k + 1) none (fun j hj => by
      obtain ⟨e2, he2⟩ := h (j + 1) (Nat.succ_lt_succ hj)
      exact ⟨e2, by rw [← he2]; ring_nf⟩)
    simp only [retryLoop, queryProbe, he, hrec]
    rw [show k + (m + 1) = k + 1 + m from by omega]
    cases m <;> simp

/-- When the first transport success is at attempt index i inside the
remaining budget, the retry loop stops there with the response body and
has made exactly i + 1 attempts. -/
theorem retryLoop_first_success (send : Transport) (body : String) :
    ∀ (i n k : Nat) (rb : Option String),
      (∀ j, j < i → ∃ e, send (k + j) = Except.error e) →
      send (k + i) = Except.ok body →
      i < n →
      retryLoop (queryProbe send) n ⟨k, rb⟩ =
        (⟨k + i + 1, some body⟩, none, i + 1) := by
  intro i
  induction i with
  | zero =>
    intro n k rb _ hs hn
    match n, hn with
    | m + 1, _ =>
      rw [Nat.add_zero] at hs
      simp [retryLoop, queryProbe, hs]
  | succ m ih =>
    intro n k rb h hs hn
    match n, hn with
    | p + 1, hn =>
      obtain ⟨e, he⟩ := h 0 (Nat.succ_pos m)
      rw [Nat.add_zero] at he
      have hrec := ih p (k + 1) none
        (fun j hj => by
          obtain ⟨e2, he2⟩ := h (j + 1) (Nat.succ_lt_succ hj)
          exact ⟨e2, by rw [← he2]; ring_nf⟩)
        (by rw [← hs]; ring_nf)
        (Nat.lt_of_succ_lt_succ hn)
      simp only [retryLoop, queryProbe, he, hrec]
      rw [show k + (m + 1) + 1 = k + 1 + m + 1 from by omega]

/-- The retrier as both query paths invoke it: first success at attempt
i < 6 yields that response body after i + 1 transport attempts. -/
theorem retryRun_first_success (send : Transport) (body : String) (i : Nat)
    (hf : ∀ j, j < i → ∃ e, send j = Except.error e)
    (hs : send i = Except.ok body) (hi : i < 6) :
    retryUntilSuccessful 6 1 (queryProbe send) ⟨0, none⟩ =
      (⟨i + 1, some body⟩, none, i + 1) := by
  have := retryLoop_first_success send body i 6 0 none
    (fun j hj => by simpa using hf j hj) (by simpa using hs) hi
  simpa [retryUntilSuccessful] using this

/-- The retrier as both query paths invoke it: when all 6 attempts of
the window fail it reports the timeout error after exactly 6 attempts. -/
theorem retryRun_all_fail (send : Transport)
    (hf : ∀ j, j < 6 → ∃ e, send j = Except.error e) :
    retryUntilSuccessful 6 1 (queryProbe send) ⟨0, none⟩ =
      (⟨6, none⟩, some "Failed to execute function in given timeout", 6) := by
  have := retryLoop_all_fail send 6 0 none (fun j hj => by simpa using hf j hj)
  simpa [retryUntilSuccessful] using this

/-! ## Path characterization of the two query operations -/

/-- When the bypass condition does not hold, the multi-resource query
reduces to its network path. -/
theorem multi_nonbypass (c : HTTPClient)
    (marshal : PermissionFilterRequest → Except String String)
    (send : Transport)
    (unmarshal : String → Except String PermissionFilterResponse)
    (resources : List String) (action : Action) (opts : PermissionOptions)
    (h : c.overrideHeaderValue = "" ∨ opts.OverrideHeaderValue ≠ c.overrideHeaderValue) :
    QueryPermissionsMultiResources c marshal send unmarshal resources action (some opts) =
      multiNetwork marshal send unmarshal resources action (some opts) := by
  unfold QueryPermissionsMultiResources
  rcases h with h | h
  · simp [h]
  · by_cases hc : c.overrideHeaderValue = "" <;> simp [hc, h]

/-- When the bypass condition does not hold, the single-resource query
reduces to its network path. -/
theorem single_nonbypass (c : HTTPClient)
    (marshal : PermissionQueryRequest → Except String String)
    (send : Transport)
    (unmarshal : String → Except String PermissionQueryResponse)
    (resource : String) (action : Action) (opts : PermissionOptions)
    (h : c.overrideHeaderValue = "" ∨ opts.OverrideHeaderValue ≠ c.overrideHeaderValue) :
    QueryPermissions c marshal send unmarshal resource action (some opts) =
      singleNetwork marshal send unmarshal resource action (some opts) := by
  unfold QueryPermissions
  rcases h with h | h
  · simp [h]
  · by_cases hc : c.overrideHeaderValue = "" <;> simp [hc, h]

/-- Network path of the multi-resource query on the fully successful
run: the result is the membership map of the requested resources in the
decoded allowed subset. -/
theorem multiNetwork_success
    (marshal : PermissionFilterRequest → Except String String)
    (send : Transport)
    (unmarshal : String → Except String PermissionFilterResponse)
    (resources : List String) (action : Action) (opts : PermissionOptions)
    (bodyM body : String) (allowed : List String) (i : Nat)
    (hm : marshal (filterRequestOf resources action opts) = Except.ok bodyM)
    (hf : ∀ j, j < i → ∃ e, send j = Except.error e)
    (hs : send i = Except.ok body) (hi : i < 6)
    (hu : unmarshal body = Except.ok ⟨allowed⟩) :
    multiNetwork marshal send unmarshal resources action (some opts) =
      { ret := .ret (some (resources.map (fun res => allowed.contains res)), none),
        bypassTaken := false, marshalCalls := 1, retrierCalls := 1,
        transportAttempts := i + 1 } := by
  unfold multiNetwork
  dsimp only
  rw [hm, retryRun_first_success send body i hf hs hi]
  simp [hu]

/-- Network path of the multi-resource query when the transport never
succeeds in the retry window: the timeout error wrapped, a nil slice,
exactly 6 transport attempts. -/
theorem multiNetwork_retry_exhausted
    (marshal : PermissionFilterRequest → Except String String)
    (send : Transport)
    (unmarshal : String → Except String PermissionFilterResponse)
    (resources : List String) (action : Action) (opts : PermissionOptions)
    (bodyM : String)
    (hm : marshal (filterRequestOf resources action opts) = Except.ok bodyM)
    (hf : ∀ j, j < 6 → ∃ e, send j = Except.error e) :
    multiNetwork marshal send unmarshal resources action (some opts) =
      { ret := .ret (none, some (wrapErr "Failed to send HTTP request to OPA"
          "Failed to execute function in given timeout")),
        bypassTaken := false, marshalCalls := 1, retrierCalls := 1,
        transportAttempts := 6 } := by
  unfold multiNetwork
  dsimp only
  rw [hm, retryRun_all_fail send hf]

/-- Network path of the multi-resource query when the response body does
not decode: the wrapped unmarshal error, a nil slice, and no transport
attempt beyond the one that succeeded. -/
theorem multiNetwork_decode_fail
    (marshal : PermissionFilterRequest → Except String String)
    (send : Transport)
    (unmarshal : String → Except String PermissionFilterResponse)
    (resources : List String) (action : Action) (opts : PermissionOptions)
    (bodyM body e2 : String) (i : Nat)
    (hm : marshal (filterRequestOf resources action opts) = Except.ok bodyM)
    (hf : ∀ j, j < i → ∃ e, send j = Except.error e)
    (hs : send i = Except.ok body) (hi : i < 6)
    (hu : unmarshal body = Except.error e2) :
    multiNetwork marshal send unmarshal resources action (some opts) =
      { ret := .ret (none, some (wrapErr "Failed to unmarshal response body" e2)),
        bypassTaken := false, marshalCalls := 1, retrierCalls := 1,
        transportAttempts := i + 1 } := by
  unfold multiNetwork
  dsimp only
  rw [hm, retryRun_first_success send body i hf hs hi]
  simp [hu]

/-- Network path of the multi-resource query when request marshalling
fails: the wrapped error, a nil slice, the retrier never entered, zero
transport attempts. -/
theorem multiNetwork_marshal_fail
    (marshal : PermissionFilterRequest → Except String String)
    (send : Transport)
    (unmarshal : String → Except String PermissionFilterResponse)
    (resources : List String) (action : Action) (opts : PermissionOptions)
    (e : String)
    (hm : marshal (filterRequestOf resources action opts) = Except.error e) :
    multiNetwork marshal send unmarshal resources action (some opts) =
      { ret := .ret (none, some (wrapErr "Failed to generate request body" e)),
        bypassTaken := false, marshalCalls := 1, retrierCalls := 0,
        transportAttempts := 0 } := by
  unfold multiNetwork
  dsimp only
  rw [hm]

/-- Network path of the single query on the fully successful run: the
decoded boolean is returned with a nil error. -/
theorem singleNetwork_success
    (marshal : PermissionQueryRequest → Except String String)
    (send : Transport)
    (unmarshal : String → Except String PermissionQueryResponse)
    (resource : String) (action : Action) (opts : PermissionOptions)
    (bodyM body : String) (b : Bool) (i : Nat)
    (hm : marshal (queryRequestOf resource action opts) = Except.ok bodyM)
    (hf : ∀ j, j < i → ∃ e, send j = Except.error e)
    (hs : send i = Except.ok body) (hi : i < 6)
    (hu : unmarshal body = Except.ok ⟨b⟩) :
    singleNetwork marshal send unmarshal resource action (some opts) =
      { ret := .ret (b, none), bypassTaken := false, marshalCalls := 1,
        retrierCalls := 1, transportAttempts := i + 1 } := by
  unfold singleNetwork
  dsimp only
  rw [hm, retryRun_first_success send body i hf hs hi]
  simp [hu]

/-- Network path of the single query when the transport never succeeds
in the retry window: the timeout error wrapped, the default false,
exactly 6 transport attempts. -/
theorem singleNetwork_retry_exhausted
    (marshal : PermissionQueryRequest → Except String String)
    (send : Transport)
    (unmarshal : String → Except String PermissionQueryResponse)
    (resource : String) (action : Action) (opts : PermissionOptions)
    (bodyM : String)
    (hm : marshal (queryRequestOf resource action opts) = Except.ok bodyM)
    (hf : ∀ j, j < 6 → ∃ e, send j = Except.error e) :
    singleNetwork marshal send unmarshal resource action (some opts) =
      { ret := .ret (false, some (wrapErr "Failed to send HTTP request to OPA"
          "Failed to execute function in given timeout")),
        bypassTaken := false, marshalCalls := 1, retrierCalls := 1,
        transportAttempts := 6 } := by
  unfold singleNetwork
  dsimp only
  rw [hm, retryRun_all_fail send hf]

/-- Network path of the single query when the response body does not
decode: the wrapped unmarshal error and the default false. -/
theorem singleNetwork_decode_fail
    (marshal : PermissionQueryRequest → Except String String)
    (send : Transport)
    (unmarshal : String → Except String PermissionQueryResponse)
    (resource : String) (action : Action) (opts : PermissionOptions)
    (bodyM body e2 : String) (i : Nat)
    (hm : marshal (queryRequestOf resource action opts) = Except.ok bodyM)
    (hf : ∀ j, j < i → ∃ e, send j = Except.error e)
    (hs : send i = Except.ok body) (hi : i < 6)
    (hu : unmarshal body = Except.error e2) :
    singleNetwork marshal send unmarshal resource action (some opts) =
      { ret := .ret (false, some (wrapErr "Failed to unmarshal response body" e2)),
        bypassTaken := false, marshalCalls := 1, retrierCalls := 1,
        transportAttempts := i + 1 } := by
  unfold singleNetwork
  dsimp only
  rw [hm, retryRun_first_success send body i hf hs hi]
  simp [hu]

/-- Network path of the single query when request marshalling fails:
the wrapped error, the default false, the retrier never entered, zero
transport attempts. -/
theorem singleNetwork_marshal_fail
    (marshal : PermissionQueryRequest → Except String String)
    (send : Transport)
    (unmarshal : String → Except String PermissionQueryResponse)
    (resource : String) (action : Action) (opts : PermissionOptions)
    (e : String)
    (hm : marshal (queryRequestOf resource action opts) = Except.error e) :
    singleNetwork marshal send unmarshal resource action (some opts) =
      { ret := .ret (false, some (wrapErr "Failed to generate request body" e)),
        bypassTaken := false, marshalCalls := 1, retrierCalls := 0,
        transportAttempts := 0 } := by
  unfold singleNetwork
  dsimp only
  rw [hm]

/-- Every error return of the multi-resource network path carries a nil
result slice. -/
theorem multiNetwork_error_default
    (marshal : PermissionFilterRequest → Except String String)
    (send : Transport)
    (unmarshal : String → Except String PermissionFilterResponse)
    (resources : List String) (action : Action)
    (popts : Option PermissionOptions) (res : Option (List Bool)) (err : String)
    (h : (multiNetwork marshal send unmarshal resources action popts).ret =
      GoResult.ret (res, some err)) :
    res = none := by
  unfold multiNetwork at h
  match popts with
  | none => simp at h
  | some opts =>
    dsimp only at h
    cases hm : marshal (filterRequestOf resources action opts) with
    | error e =>
      rw [hm] at h
      simp at h
      exact h.1.symm
    | ok rb =>
      rw [hm] at h
      dsimp only at h
      cases hr : (retryUntilSuccessful 6 1 (queryProbe send) ⟨0, none⟩).2.1 with
      | some e =>
        rw [hr] at h
        simp at h
        exact h.1.symm
      | none =>
        rw [hr] at h
        dsimp only at h
        cases hu : unmarshal ((retryUntilSuccessful 6 1 (queryProbe send)
            ⟨0, none⟩).1.responseBody.getD "") with
        | error e =>
          rw [hu] at h
          simp at h
          exact h.1.symm
        | ok resp =>
          rw [hu] at h
          simp at h

/-- Every error return of the single-resource network path carries the
default false. -/
theorem singleNetwork_error_default
    (marshal : PermissionQueryRequest → Except String String)
    (send : Transport)
    (unmarshal : String → Except String PermissionQueryResponse)
    (resource : String) (action : Action)
    (popts : Option PermissionOptions) (b : Bool) (err : String)
    (h : (singleNetwork marshal send unmarshal resource action popts).ret =
      GoResult.ret (b, some err)) :
    b = false := by
  unfold singleNetwork at h
  match popts with
  | none => simp at h
  | some opts =>
    dsimp only at h
    cases hm : marshal (queryRequestOf resource action opts) with
    | error e =>
      rw [hm] at h
      simp at h
      exact h.1
    | ok rb =>
      rw [hm] at h
      dsimp only at h
      cases hr : (retryUntilSuccessful 6 1 (queryProbe send) ⟨0, none⟩).2.1 with
      | some e =>
        rw [hr] at h
        simp at h
        exact h.1
      | none =>
        rw [hr] at h
        dsimp only at h
        cases hu : unmarshal ((retryUntilSuccessful 6 1 (queryProbe send)
            ⟨0, none⟩).1.responseBody.getD "") with
        | error e =>
          rw [hu] at h
          simp at h
          exact h.1
        | ok resp =>
          rw [hu] at h
          simp at h

/-! ## The claims -/

/-- C1: when QueryPermissionsMultiResources returns with a nil error
from a served request whose response decodes to the allowed subset, the
returned slice has exactly len(resources) elements, element i is true
iff resources[i] occurs in the decoded allowed subset, and duplicate
resource strings receive the same outcome. -/
theorem C1_batch_positional_membership (c : HTTPClient)
    (marshal : PermissionFilterRequest → Except String String)
    (send : Transport)
    (unmarshal : String → Except String PermissionFilterResponse)
    (resources : List String) (action : Action) (opts : PermissionOptions)
    (bodyM body : String) (allowed : List String) (i : Nat)
    (hnb : c.overrideHeaderValue = "" ∨ opts.OverrideHeaderValue ≠ c.overrideHeaderValue)
    (hm : marshal (filterRequestOf resources action opts) = Except.ok bodyM)
    (hf : ∀ j, j < i → ∃ e, send j = Except.error e)
    (hs : send i = Except.ok body) (hi : i < 6)
    (hu : unmarshal body = Except.ok ⟨allowed⟩) :
    ∃ results : List Bool,
      (QueryPermissionsMultiResources c marshal send unmarshal resources action
          (some opts)).ret = GoResult.ret (some results, none) ∧
      results.length = resources.length ∧
      (∀ (idx : Nat) (h1 : idx < results.length) (h2 : idx < resources.length),
        results.get ⟨idx, h1⟩ = allowed.contains (resources.get ⟨idx, h2⟩)) ∧
      (∀ (idx jdx : Nat) (h1 : idx < results.length) (h2 : idx < resources.length)
          (h3 : jdx < results.length) (h4 : jdx < resources.length),
        resources.get ⟨idx, h2⟩ = resources.get ⟨jdx, h4⟩ →
        results.get ⟨idx, h1⟩ = results.get ⟨jdx, h3⟩) := by
  refine ⟨resources.map (fun res => allowed.contains res), ?_, ?_, ?_, ?_⟩
  · rw [multi_nonbypass c marshal send unmarshal resources action opts hnb,
      multiNetwork_success marshal send unmarshal resources action opts
        bodyM body allowed i hm hf hs hi hu]
  · simp
  · intro idx h1 h2
    simp
  · intro idx jdx h1 h2 h3 h4 hEq
    have hg : resources[idx] = resources[jdx] := hEq
    simp [hg]

/-- C1 witness: resources ["a", "b", "c"] with decoded allowed subset
["a", "c"] give [true, false, true]. -/
theorem C1_batch_positional_membership_witness :
    ∃ results : List Bool,
      (QueryPermissionsMultiResources cNoOverride marshalOkF sendOk unmarshalAC
          ["a", "b", "c"] ActionRead (some optsPlain)).ret =
        GoResult.ret (some results, none) ∧
      results.length = (["a", "b", "c"] : List String).length ∧
      (∀ (idx : Nat) (h1 : idx < results.length)
          (h2 : idx < (["a", "b", "c"] : List String).length),
        results.get ⟨idx, h1⟩ =
          (["a", "c"] : List String).contains ((["a", "b", "c"] : List String).get ⟨idx, h2⟩)) ∧
      (∀ (idx jdx : Nat) (h1 : idx < results.length)
          (h2 : idx < (["a", "b", "c"] : List String).length)
          (h3 : jdx < results.length)
          (h4 : jdx < (["a", "b", "c"] : List String).length),
        (["a", "b", "c"] : List String).get ⟨idx, h2⟩ =
          (["a", "b", "c"] : List String).get ⟨jdx, h4⟩ →
        results.get ⟨idx, h1⟩ = results.get ⟨jdx, h3⟩) :=
  C1_batch_positional_membership cNoOverride marshalOkF sendOk unmarshalAC
    ["a", "b", "c"] ActionRead optsPlain "requestBody" "responseBody" ["a", "c"] 0
    (Or.inl rfl) rfl (fun j hj => absurd hj (by omega)) rfl (by omega) rfl

/-- C2: when the configured override value is non-empty and equals the
option value, the single query returns (true, nil) and the batch query
returns an all-true slice of the input length, both with zero marshal
calls, zero retrier entries and zero transport attempts. -/
theorem C2_bypass_allows_everything (c : HTTPClient)
    (marshalF : PermissionFilterRequest → Except String String)
    (marshalQ : PermissionQueryRequest → Except String String)
    (send : Transport)
    (unmarshalF : String → Except String PermissionFilterResponse)
    (unmarshalQ : String → Except String PermissionQueryResponse)
    (resources : List String) (resource : String) (action : Action)
    (opts : PermissionOptions)
    (hcfg : c.overrideHeaderValue ≠ "")
    (hopt : opts.OverrideHeaderValue = c.overrideHeaderValue) :
    QueryPermissionsMultiResources c marshalF send unmarshalF resources action
        (some opts) =
      { ret := GoResult.ret (some (List.replicate resources.length true), none),
        bypassTaken := true, marshalCalls := 0, retrierCalls := 0,
        transportAttempts := 0 } ∧
    QueryPermissions c marshalQ send unmarshalQ resource action (some opts) =
      { ret := GoResult.ret (true, none), bypassTaken := true,
        marshalCalls := 0, retrierCalls := 0, transportAttempts := 0 } := by
  constructor
  · unfold QueryPermissionsMultiResources
    simp [hcfg, hopt]
  · unfold QueryPermissions
    simp [hcfg, hopt]

/-- C2 witness: with the configured value "secret" and matching options,
both operations allow everything with no marshal, retrier or transport
activity. -/
theorem C2_bypass_allows_everything_witness :
    QueryPermissionsMultiResources cSecret marshalOkF sendFail unmarshalAC
        ["a", "b"] ActionRead (some optsSecret) =
      { ret := GoResult.ret (some (List.replicate 2 true), none),
        bypassTaken := true, marshalCalls := 0, retrierCalls := 0,
        transportAttempts := 0 } ∧
    QueryPermissions cSecret marshalOkQ sendFail unmarshalFalse "x" ActionRead
        (some optsSecret) =
      { ret := GoResult.ret (true, none), bypassTaken := true,
        marshalCalls := 0, retrierCalls := 0, transportAttempts := 0 } :=
  C2_bypass_allows_everything cSecret marshalOkF marshalOkQ sendFail
    unmarshalAC unmarshalFalse ["a", "b"] "x" ActionRead optsSecret
    (by decide) rfl

/-- C3: whenever either query operation returns a non-nil error, it
returns the safe default alongside it: the batch query a nil slice,
never a partial one, and the single query false; for every failure kind,
over all marshal, transport and unmarshal behaviours. -/
theorem C3_error_implies_safe_default (c : HTTPClient)
    (marshalF : PermissionFilterRequest → Except String String)
    (marshalQ : PermissionQueryRequest → Except String String)
    (send sendQ : Transport)
    (unmarshalF : String → Except String PermissionFilterResponse)
    (unmarshalQ : String → Except String PermissionQueryResponse)
    (resources : List String) (resource : String) (action : Action)
    (popts : Option PermissionOptions) :
    (∀ (res : Option (List Bool)) (err : String),
      (QueryPermissionsMultiResources c marshalF send unmarshalF resources action
          popts).ret = GoResult.ret (res, some err) → res = none) ∧
    (∀ (b : Bool) (err : String),
      (QueryPermissions c marshalQ sendQ unmarshalQ resource action popts).ret =
        GoResult.ret (b, some err) → b = false) := by
  constructor
  · intro res err h
    unfold QueryPermissionsMultiResources at h
    by_cases hc : c.overrideHeaderValue = ""
    · rw [if_neg (by simp [hc])] at h
      exact multiNetwork_error_default _ _ _ _ _ _ _ _ h
    · rw [if_pos hc] at h
      match popts with
      | none => simp at h
      | some opts =>
        dsimp only at h
        by_cases ho : opts.OverrideHeaderValue = c.overrideHeaderValue
        · rw [if_pos ho] at h
          simp at h
        · rw [if_neg ho] at h
          exact multiNetwork_error_default _ _ _ _ _ _ _ _ h
  · intro b err h
    unfold QueryPermissions at h
    by_cases hc : c.overrideHeaderValue = ""
    · rw [if_neg (by simp [hc])] at h
      exact singleNetwork_error_default _ _ _ _ _ _ _ _ h
    · rw [if_pos hc] at h
      match popts with
      | none => simp at h
      | some opts =>
        dsimp only at h
        by_cases ho : opts.OverrideHeaderValue = c.overrideHeaderValue
        · rw [if_pos ho] at h
          simp at h
        · rw [if_neg ho] at h
          exact singleNetwork_error_default _ _ _ _ _ _ _ _ h

/-- C3 witness: a transport failing for the whole window makes the batch
query return a nil slice and the single query false, each beside the
wrapped error. -/
theorem C3_error_implies_safe_default_witness :
    (QueryPermissionsMultiResources cNoOverride marshalOkF sendFail unmarshalAC
        ["a"] ActionRead (some optsPlain)).ret =
      GoResult.ret (none, some (wrapErr "Failed to send HTTP request to OPA"
        "Failed to execute function in given timeout")) ∧
    (QueryPermissions cNoOverride marshalOkQ sendFail unmarshalFalse "x"
        ActionRead (some optsPlain)).ret =
      GoResult.ret (false, some (wrapErr "Failed to send HTTP request to OPA"
        "Failed to execute function in given timeout")) ∧
    (none : Option (List Bool)) = none ∧ (false : Bool) = false := by
  refine ⟨by rfl, by rfl, ?_, ?_⟩
  · exact (C3_error_implies_safe_default cNoOverride marshalOkF marshalOkQ
      sendFail sendFail unmarshalAC unmarshalFalse ["a"] "x" ActionRead
      (some optsPlain)).1 none
      (wrapErr "Failed to send HTTP request to OPA"
        "Failed to execute function in given timeout") (by rfl)
  · exact (C3_error_implies_safe_default cNoOverride marshalOkF marshalOkQ
      sendFail sendFail unmarshalAC unmarshalFalse ["a"] "x" ActionRead
      (some optsPlain)).2 false
      (wrapErr "Failed to send HTTP request to OPA"
        "Failed to execute function in given timeout") (by rfl)

/-- C4: serialization failures are never retried: a request-encode
failure returns the wrapped error with the retrier never entered and
zero transport attempts, in both operations; a response-decode failure
after a transport success at attempt i returns the wrapped error with
the retrier entered exactly once and no transport attempt beyond the
successful one. -/
theorem C4_serialization_never_retried (c : HTTPClient)
    (marshalF : PermissionFilterRequest → Except String String)
    (marshalQ : PermissionQueryRequest → Except String String)
    (send : Transport)
    (unmarshalF : String → Except String PermissionFilterResponse)
    (unmarshalQ : String → Except String PermissionQueryResponse)
    (resources : List String) (resource : String) (action : Action)
    (opts : PermissionOptions)
    (hnb : c.overrideHeaderValue = "" ∨ opts.OverrideHeaderValue ≠ c.overrideHeaderValue) :
    (∀ e, marshalF (filterRequestOf resources action opts) = Except.error e →
      QueryPermissionsMultiResources c marshalF send unmarshalF resources action
          (some opts) =
        { ret := GoResult.ret (none, some (wrapErr "Failed to generate request body" e)),
          bypassTaken := false, marshalCalls := 1, retrierCalls := 0,
          transportAttempts := 0 }) ∧
    (∀ e, marshalQ (queryRequestOf resource action opts) = Except.error e →
      QueryPermissions c marshalQ send unmarshalQ resource action (some opts) =
        { ret := GoResult.ret (false, some (wrapErr "Failed to generate request body" e)),
          bypassTaken := false, marshalCalls := 1, retrierCalls := 0,
          transportAttempts := 0 }) ∧
    (∀ bodyM body e2 i, marshalF (filterRequestOf resources action opts) = Except.ok bodyM →
      (∀ j, j < i → ∃ e, send j = Except.error e) → send i = Except.ok body → i < 6 →
      unmarshalF body = Except.error e2 →
      QueryPermissionsMultiResources c marshalF send unmarshalF resources action
          (some opts) =
        { ret := GoResult.ret (none, some (wrapErr "Failed to unmarshal response body" e2)),
          bypassTaken := false, marshalCalls := 1, retrierCalls := 1,
          transportAttempts := i + 1 }) ∧
    (∀ bodyM body e2 i, marshalQ (queryRequestOf resource action opts) = Except.ok bodyM →
      (∀ j, j < i → ∃ e, send j = Except.error e) → send i = Except.ok body → i < 6 →
      unmarshalQ body = Except.error e2 →
      QueryPermissions c marshalQ send unmarshalQ resource action (some opts) =
        { ret := GoResult.ret (false, some (wrapErr "Failed to unmarshal response body" e2)),
          bypassTaken := false, marshalCalls := 1, retrierCalls := 1,
          transportAttempts := i + 1 }) := by
  refine ⟨?_, ?_, ?_, ?_⟩
  · intro e hm
    rw [multi_nonbypass c marshalF send unmarshalF resources action opts hnb]
    exact multiNetwork_marshal_fail marshalF send unmarshalF resources action opts e hm
  · intro e hm
    rw [single_nonbypass c marshalQ send unmarshalQ resource action opts hnb]
    exact singleNetwork_marshal_fail marshalQ send unmarshalQ resource action opts e hm
  · intro bodyM body e2 i hm hf hs hi hu
    rw [multi_nonbypass c marshalF send unmarshalF resources action opts hnb]
    exact multiNetwork_decode_fail marshalF send unmarshalF resources action opts
      bodyM body e2 i hm hf hs hi hu
  · intro bodyM body e2 i hm hf hs hi hu
    rw [single_nonbypass c marshalQ send unmarshalQ resource action opts hnb]
    exact singleNetwork_decode_fail marshalQ send unmarshalQ resource action opts
      bodyM body e2 i hm hf hs hi hu

/-- C4 witness: a failing marshal oracle yields the wrapped encode error
with zero transport attempts and the retrier never entered; a failing
unmarshal oracle after an immediate transport success yields the wrapped
decode error with exactly one transport attempt. -/
theorem C4_serialization_never_retried_witness :
    QueryPermissionsMultiResources cNoOverride marshalFailF sendOk unmarshalAC
        ["a"] ActionRead (some optsPlain) =
      { ret := GoResult.ret (none, some (wrapErr "Failed to generate request body" "marshal boom")),
        bypassTaken := false, marshalCalls := 1, retrierCalls := 0,
        transportAttempts := 0 } ∧
    QueryPermissions cNoOverride marshalOkQ sendOk unmarshalFailQ "x" ActionRead
        (some optsPlain) =
      { ret := GoResult.ret (false, some (wrapErr "Failed to unmarshal response body" "invalid character")),
        bypassTaken := false, marshalCalls := 1, retrierCalls := 1,
        transportAttempts := 1 } :=
  ⟨(C4_serialization_never_retried cNoOverride marshalFailF marshalOkQ sendOk
      unmarshalAC unmarshalFailQ ["a"] "x" ActionRead optsPlain (Or.inl rfl)).1
      "marshal boom" rfl,
   (C4_serialization_never_retried cNoOverride marshalFailF marshalOkQ sendOk
      unmarshalAC unmarshalFailQ ["a"] "x" ActionRead optsPlain (Or.inl rfl)).2.2.2
      "requestBody" "responseBody" "invalid character" 0 rfl
      (fun j hj => absurd hj (by omega)) rfl (by omega) rfl⟩

/-- C5: the whole transport exchange is wrapped in the retrier with the
6-second window and 1-second interval, one transport attempt per probe:
a transport failing on every attempt of the window yields the wrapped
timeout error with the default result after exactly 6 attempts in both
operations, and a transport that first succeeds at attempt i inside the
window yields the same returned pair as one that succeeds immediately
with the same body. -/
theorem C5_retry_window (c : HTTPClient)
    (marshalF : PermissionFilterRequest → Except String String)
    (marshalQ : PermissionQueryRequest → Except String String)
    (send : Transport)
    (unmarshalF : String → Except String PermissionFilterResponse)
    (unmarshalQ : String → Except String PermissionQueryResponse)
    (resources : List String) (resource : String) (action : Action)
    (opts : PermissionOptions)
    (hnb : c.overrideHeaderValue = "" ∨ opts.OverrideHeaderValue ≠ c.overrideHeaderValue) :
    (∀ bodyM, marshalF (filterRequestOf resources action opts) = Except.ok bodyM →
      (∀ j, j < 6 → ∃ e, send j = Except.error e) →
      QueryPermissionsMultiResources c marshalF send unmarshalF resources action
          (some opts) =
        { ret := GoResult.ret (none, some (wrapErr "Failed to send HTTP request to OPA"
            "Failed to execute function in given timeout")),
          bypassTaken := false, marshalCalls := 1, retrierCalls := 1,
          transportAttempts := 6 }) ∧
    (∀ bodyM, marshalQ (queryRequestOf resource action opts) = Except.ok bodyM →
      (∀ j, j < 6 → ∃ e, send j = Except.error e) →
      QueryPermissions c marshalQ send unmarshalQ resource action (some opts) =
        { ret := GoResult.ret (false, some (wrapErr "Failed to send HTTP request to OPA"
            "Failed to execute function in given timeout")),
          bypassTaken := false, marshalCalls := 1, retrierCalls := 1,
          transportAttempts := 6 }) ∧
    (∀ body i, (∀ j, j < i → ∃ e, send j = Except.error e) →
      send i = Except.ok body → i < 6 →
      (QueryPermissionsMultiResources c marshalF send unmarshalF resources action
          (some opts)).ret =
        (QueryPermissionsMultiResources c marshalF (fun _ => Except.ok body)
          unmarshalF resources action (some opts)).ret) ∧
    (∀ body i, (∀ j, j < i → ∃ e, send j = Except.error e) →
      send i = Except.ok body → i < 6 →
      (QueryPermissions c marshalQ send unmarshalQ resource action (some opts)).ret =
        (QueryPermissions c marshalQ (fun _ => Except.ok body) unmarshalQ resource
          action (some opts)).ret) := by
  refine ⟨?_, ?_, ?_, ?_⟩
  · intro bodyM hm hf
    rw [multi_nonbypass c marshalF send unmarshalF resources action opts hnb]
    exact multiNetwork_retry_exhausted marshalF send unmarshalF resources action
      opts bodyM hm hf
  · intro bodyM hm hf
    rw [single_nonbypass c marshalQ send unmarshalQ resource action opts hnb]
    exact singleNetwork_retry_exhausted marshalQ send unmarshalQ resource action
      opts bodyM hm hf
  · intro body i hf hs hi
    rw [multi_nonbypass c marshalF send unmarshalF resources action opts hnb,
      multi_nonbypass c marshalF (fun _ => Except.ok body) unmarshalF resources
        action opts hnb]
    cases hm : marshalF (filterRequestOf resources action opts) with
    | error e =>
      rw [multiNetwork_marshal_fail marshalF send unmarshalF resources action opts e hm,
        multiNetwork_marshal_fail marshalF (fun _ => Except.ok body) unmarshalF
          resources action opts e hm]
    | ok bodyM =>
      have h1 : ∀ j : Nat, j < 0 → ∃ e, (fun _ : Nat => Except.ok (ε := String) body) j
          = Except.error e := fun j hj => absurd hj (by omega)
      cases hu : unmarshalF body with
      | error e2 =>
        rw [multiNetwork_decode_fail marshalF send unmarshalF resources action opts
            bodyM body e2 i hm hf hs hi hu,
          multiNetwork_decode_fail marshalF (fun _ => Except.ok body) unmarshalF
            resources action opts bodyM body e2 0 hm h1 rfl (by omega) hu]
      | ok resp =>
        rw [multiNetwork_success marshalF send unmarshalF resources action opts
            bodyM body resp.Result i hm hf hs hi (by rw [hu]),
          multiNetwork_success marshalF (fun _ => Except.ok body) unmarshalF
            resources action opts bodyM body resp.Result 0 hm h1 rfl (by omega)
            (by rw [hu])]
  · intro body i hf hs hi
    rw [single_nonbypass c marshalQ send unmarshalQ resource action opts hnb,
      single_nonbypass c marshalQ (fun _ => Except.ok body) unmarshalQ resource
        action opts hnb]
    cases hm : marshalQ (queryRequestOf resource action opts) with
    | error e =>
      rw [singleNetwork_marshal_fail marshalQ send unmarshalQ resource action opts e hm,
        singleNetwork_marshal_fail marshalQ (fun _ => Except.ok body) unmarshalQ
          resource action opts e hm]
    | ok bodyM =>
      have h1 : ∀ j : Nat, j < 0 → ∃ e, (fun _ : Nat => Except.ok (ε := String) body) j
          = Except.error e := fun j hj => absurd hj (by omega)
      cases hu : unmarshalQ body with
      | error e2 =>
        rw [singleNetwork_decode_fail marshalQ send unmarshalQ resource action opts
            bodyM body e2 i hm hf hs hi hu,
          singleNetwork_decode_fail marshalQ (fun _ => Except.ok body) unmarshalQ
            resource action opts bodyM body e2 0 hm h1 rfl (by omega) hu]
      | ok resp =>
        rw [singleNetwork_success marshalQ send unmarshalQ resource action opts
            bodyM body resp.Result i hm hf hs hi (by rw [hu]),
          singleNetwork_success marshalQ (fun _ => Except.ok body) unmarshalQ
            resource action opts bodyM body resp.Result 0 hm h1 rfl (by omega)
            (by rw [hu])]

/-- C5 witness: with a transport failing on every attempt both
operations return the wrapped timeout error and the default result after
exactly 6 attempts, and a transport succeeding at the third attempt
returns the same pair as an immediately successful one. -/
theorem C5_retry_window_witness :
    (QueryPermissionsMultiResources cNoOverride marshalOkF sendFail unmarshalAC
        ["a"] ActionRead (some optsPlain) =
      { ret := GoResult.ret (none, some (wrapErr "Failed to send HTTP request to OPA"
          "Failed to execute function in given timeout")),
        bypassTaken := false, marshalCalls := 1, retrierCalls := 1,
        transportAttempts := 6 }) ∧
    (QueryPermissionsMultiResources cNoOverride marshalOkF sendFlaky unmarshalAC
        ["a", "b", "c"] ActionRead (some optsPlain)).ret =
      (QueryPermissionsMultiResources cNoOverride marshalOkF
        (fun _ => Except.ok "responseBody") unmarshalAC ["a", "b", "c"] ActionRead
        (some optsPlain)).ret := by
  have h := C5_retry_window cNoOverride marshalOkF marshalOkQ sendFail unmarshalAC
    unmarshalFalse ["a"] "x" ActionRead optsPlain (Or.inl rfl)
  have h2 := C5_retry_window cNoOverride marshalOkF marshalOkQ sendFlaky unmarshalAC
    unmarshalFalse ["a", "b", "c"] "x" ActionRead optsPlain (Or.inl rfl)
  refine ⟨h.1 "requestBody" rfl (fun j hj => ⟨"connection refused", rfl⟩), ?_⟩
  exact h2.2.2.1 "responseBody" 2
    (fun j hj => ⟨"connection refused", by
      simp only [sendFlaky]
      rw [if_pos hj]⟩)
    (by simp [sendFlaky]) (by omega)

/-- C6: when the transport exchange succeeds and the response decodes as
{result: bool}, QueryPermissions returns exactly the decoded boolean
with a nil error; in particular a decoded false yields (false, nil), not
an error. -/
theorem C6_single_returns_decoded_bool (c : HTTPClient)
    (marshalQ : PermissionQueryRequest → Except String String)
    (send : Transport)
    (unmarshalQ : String → Except String PermissionQueryResponse)
    (resource : String) (action : Action) (opts : PermissionOptions)
    (bodyM body : String) (b : Bool) (i : Nat)
    (hnb : c.overrideHeaderValue = "" ∨ opts.OverrideHeaderValue ≠ c.overrideHeaderValue)
    (hm : marshalQ (queryRequestOf resource action opts) = Except.ok bodyM)
    (hf : ∀ j, j < i → ∃ e, send j = Except.error e)
    (hs : send i = Except.ok body) (hi : i < 6)
    (hu : unmarshalQ body = Except.ok ⟨b⟩) :
    (QueryPermissions c marshalQ send unmarshalQ resource action (some opts)).ret =
      GoResult.ret (b, none) := by
  rw [single_nonbypass c marshalQ send unmarshalQ resource action opts hnb,
    singleNetwork_success marshalQ send unmarshalQ resource action opts bodyM
      body b i hm hf hs hi hu]

/-- C6 witness: a server response decoding to {result: false} for
resource "x" and action read yields (false, nil). -/
theorem C6_single_returns_decoded_bool_witness :
    (QueryPermissions cNoOverride marshalOkQ sendOk unmarshalFalse "x" ActionRead
        (some optsPlain)).ret = GoResult.ret (false, none) :=
  C6_single_returns_decoded_bool cNoOverride marshalOkQ sendOk unmarshalFalse
    "x" ActionRead optsPlain "requestBody" "responseBody" false 0 (Or.inl rfl)
    rfl (fun j hj => absurd hj (by omega)) rfl (by omega) rfl

/-- C7: an empty configured override value disables the bypass for every
input, even when the option value is also empty and hence equal; the
misconfiguration is not an error: both operations are exactly their
normal network paths, with the bypass branch not taken. -/
theorem C7_empty_override_disables_bypass (c : HTTPClient)
    (marshalF : PermissionFilterRequest → Except String String)
    (marshalQ : PermissionQueryRequest → Except String String)
    (send : Transport)
    (unmarshalF : String → Except String PermissionFilterResponse)
    (unmarshalQ : String → Except String PermissionQueryResponse)
    (resources : List String) (resource : String) (action : Action)
    (popts : Option PermissionOptions)
    (hcfg : c.overrideHeaderValue = "") :
    QueryPermissionsMultiResources c marshalF send unmarshalF resources action
        popts =
      multiNetwork marshalF send unmarshalF resources action popts ∧
    (QueryPermissionsMultiResources c marshalF send unmarshalF resources action
        popts).bypassTaken = false ∧
    QueryPermissions c marshalQ send unmarshalQ resource action popts =
      singleNetwork marshalQ send unmarshalQ resource action popts ∧
    (QueryPermissions c marshalQ send unmarshalQ resource action popts).bypassTaken
      = false := by
  have hmu : QueryPermissionsMultiResources c marshalF send unmarshalF resources
      action popts = multiNetwork marshalF send unmarshalF resources action popts := by
    unfold QueryPermissionsMultiResources
    simp [hcfg]
  have hsi : QueryPermissions c marshalQ send unmarshalQ resource action popts =
      singleNetwork marshalQ send unmarshalQ resource action popts := by
    unfold QueryPermissions
    simp [hcfg]
  refine ⟨hmu, ?_, hsi, ?_⟩
  · rw [hmu]
    unfold multiNetwork
    match popts with
    | none => rfl
    | some opts =>
      dsimp only
      cases hm : marshalF (filterRequestOf resources action opts) with
      | error e => rfl
      | ok rb =>
        dsimp only
        cases hr : (retryUntilSuccessful 6 1 (queryProbe send) ⟨0, none⟩).2.1 with
        | some e => rfl
        | none =>
          dsimp only
          cases hu : unmarshalF ((retryUntilSuccessful 6 1 (queryProbe send)
              ⟨0, none⟩).1.responseBody.getD "") with
          | error e => rfl
          | ok resp => rfl
  · rw [hsi]
    unfold singleNetwork
    match popts with
    | none => rfl
    | some opts =>
      dsimp only
      cases hm : marshalQ (queryRequestOf resource action opts) with
      | error e => rfl
      | ok rb =>
        dsimp only
        cases hr : (retryUntilSuccessful 6 1 (queryProbe send) ⟨0, none⟩).2.1 with
        | some e => rfl
        | none =>
          dsimp only
          cases hu : unmarshalQ ((retryUntilSuccessful 6 1 (queryProbe send)
              ⟨0, none⟩).1.responseBody.getD "") with
          | error e => rfl
          | ok resp => rfl

/-- C7 witness: with an empty configured override value and options
whose override value is also empty, both operations take their network
paths and the bypass branch is not taken. -/
theorem C7_empty_override_disables_bypass_witness :
    QueryPermissionsMultiResources cNoOverride marshalOkF sendOk unmarshalAC
        ["a"] ActionRead (some optsPlain) =
      multiNetwork marshalOkF sendOk unmarshalAC ["a"] ActionRead (some optsPlain) ∧
    (QueryPermissionsMultiResources cNoOverride marshalOkF sendOk unmarshalAC
        ["a"] ActionRead (some optsPlain)).bypassTaken = false ∧
    QueryPermissions cNoOverride marshalOkQ sendOk unmarshalFalse "x" ActionRead
        (some optsPlain) =
      singleNetwork marshalOkQ sendOk unmarshalFalse "x" ActionRead (some optsPlain) ∧
    (QueryPermissions cNoOverride marshalOkQ sendOk unmarshalFalse "x" ActionRead
        (some optsPlain)).bypassTaken = false :=
  C7_empty_override_disables_bypass cNoOverride marshalOkF marshalOkQ sendOk
    unmarshalAC unmarshalFalse ["a"] "x" ActionRead (some optsPlain) rfl

/-- C8 counterexample: with resource "x", action read and an empty
MemberIds list, the serialized body is {"input":{"resource":"x",
"action":"read"}}; the "ids" key is absent, so the body is not the
object {"input":{"resource":...,"action":...,"ids":...}} the claim
states for every input. -/
theorem C8_counterexample :
    marshalQueryRequest (queryRequestOf "x" ActionRead optsPlain) =
      [("input", [("resource", JsonValue.str "x"), ("action", JsonValue.str "read")])] ∧
    "ids" ∉ (marshalQueryInput (queryRequestOf "x" ActionRead optsPlain).Input).map
      Prod.fst := by
  constructor
  · rfl
  · decide

/-- C8 amended: the serialized single-query body is the one-key object
{"input": obj} where obj carries "resource" with the resource string iff
the resource is non-empty, "action" with the action iff the action is
non-empty, and "ids" with options.MemberIds iff that list is non-empty;
no other keys occur. -/
theorem C8_amended_query_body_shape (resource : String) (action : Action)
    (opts : PermissionOptions) :
    marshalQueryRequest (queryRequestOf resource action opts) =
      [("input", marshalQueryInput (queryRequestOf resource action opts).Input)] ∧
    ((("resource", JsonValue.str resource) ∈
        marshalQueryInput (queryRequestOf resource action opts).Input) ↔ resource ≠ "") ∧
    ((("action", JsonValue.str action) ∈
        marshalQueryInput (queryRequestOf resource action opts).Input) ↔ action ≠ "") ∧
    ((("ids", JsonValue.strArr opts.MemberIds) ∈
        marshalQueryInput (queryRequestOf resource action opts).Input) ↔
      opts.MemberIds ≠ []) ∧
    ∀ kv ∈ marshalQueryInput (queryRequestOf resource action opts).Input,
      kv.1 = "resource" ∨ kv.1 = "action" ∨ kv.1 = "ids" := by
  refine ⟨rfl, ?_, ?_, ?_, ?_⟩
  · unfold marshalQueryInput queryRequestOf
    by_cases h1 : resource = "" <;> by_cases h2 : (action : String) = "" <;>
      by_cases h3 : opts.MemberIds = [] <;> simp_all
  · unfold marshalQueryInput queryRequestOf
    by_cases h1 : resource = "" <;> by_cases h2 : (action : String) = "" <;>
      by_cases h3 : opts.MemberIds = [] <;> simp_all
  · unfold marshalQueryInput queryRequestOf
    by_cases h1 : resource = "" <;> by_cases h2 : (action : String) = "" <;>
      by_cases h3 : opts.MemberIds = [] <;> simp_all
  · intro kv hkv
    unfold marshalQueryInput queryRequestOf at hkv
    dsimp only at hkv
    rcases List.mem_append.1 hkv with h | h
    · rcases List.mem_append.1 h with h | h
      · left
        revert h
        split <;> simp_all
      · right; left
        revert h
        split <;> simp_all
    · right; right
      revert h
      split <;> simp_all

/-- C8 amended witness: for resource "x", action read and member ids
["id1"] all three keys are present with their values and the key of
every emitted field is one of resource, action and ids. -/
theorem C8_amended_query_body_shape_witness :
    (("resource", JsonValue.str "x") ∈
      marshalQueryInput (queryRequestOf "x" ActionRead optsIds).Input) ∧
    (("action", JsonValue.str ActionRead) ∈
      marshalQueryInput (queryRequestOf "x" ActionRead optsIds).Input) ∧
    (("ids", JsonValue.strArr ["id1"]) ∈
      marshalQueryInput (queryRequestOf "x" ActionRead optsIds).Input) ∧
    (("resource", JsonValue.str "x").1 = "resource" ∨
      ("resource", JsonValue.str "x").1 = "action" ∨
      ("resource", JsonValue.str "x").1 = "ids") :=
  ⟨((C8_amended_query_body_shape "x" ActionRead optsIds).2.1).mpr (by decide),
   ((C8_amended_query_body_shape "x" ActionRead optsIds).2.2.1).mpr (by decide),
   ((C8_amended_query_body_shape "x" ActionRead optsIds).2.2.2.1).mpr (by decide),
   (C8_amended_query_body_shape "x" ActionRead optsIds).2.2.2.2
      ("resource", JsonValue.str "x") (by decide)⟩

/-- C9 counterexample: a nil PermissionOptions pointer makes both
operations dereference nil and panic, on the network path when no
override is configured and in the bypass check when one is. -/
theorem C9_counterexample :
    (QueryPermissions cNoOverride marshalOkQ sendOk unmarshalFalse "x" ActionRead
        none).ret = GoResult.panic ∧
    (QueryPermissionsMultiResources cSecret marshalOkF sendOk unmarshalAC ["a"]
        ActionRead none).ret = GoResult.panic := by
  constructor <;> rfl

/-- C9 amended: for every input whose PermissionOptions pointer is
non-nil, both operations return normally with a (result, error) pair:
no execution path panics. A nil pointer, however, panics. -/
theorem C9_amended_no_panic_with_options (c : HTTPClient)
    (marshalF : PermissionFilterRequest → Except String String)
    (marshalQ : PermissionQueryRequest → Except String String)
    (send : Transport)
    (unmarshalF : String → Except String PermissionFilterResponse)
    (unmarshalQ : String → Except String PermissionQueryResponse)
    (resources : List String) (resource : String) (action : Action)
    (opts : PermissionOptions) :
    (∃ p, (QueryPermissionsMultiResources c marshalF send unmarshalF resources
      action (some opts)).ret = GoResult.ret p) ∧
    (∃ p, (QueryPermissions c marshalQ send unmarshalQ resource action
      (some opts)).ret = GoResult.ret p) := by
  constructor
  · unfold QueryPermissionsMultiResources multiNetwork
    try dsimp only
    by_cases hc : c.overrideHeaderValue = ""
    · rw [if_neg (by simp [hc])]
      try dsimp only
      cases hm : marshalF (filterRequestOf resources action opts) with
      | error e => exact ⟨_, rfl⟩
      | ok rb =>
        try dsimp only
        cases hr : (retryUntilSuccessful 6 1 (queryProbe send) ⟨0, none⟩).2.1 with
        | some e => exact ⟨_, rfl⟩
        | none =>
          try dsimp only
          cases hu : unmarshalF ((retryUntilSuccessful 6 1 (queryProbe send)
              ⟨0, none⟩).1.responseBody.getD "") with
          | error e => exact ⟨_, rfl⟩
          | ok resp => exact ⟨_, rfl⟩
    · rw [if_pos hc]
      try dsimp only
      by_cases ho : opts.OverrideHeaderValue = c.overrideHeaderValue
      · rw [if_pos ho]
        exact ⟨_, rfl⟩
      · rw [if_neg ho]
        cases hm : marshalF (filterRequestOf resources action opts) with
        | error e => exact ⟨_, rfl⟩
        | ok rb =>
          try dsimp only
          cases hr : (retryUntilSuccessful 6 1 (queryProbe send) ⟨0, none⟩).2.1 with
          | some e => exact ⟨_, rfl⟩
          | none =>
            try dsimp only
            cases hu : unmarshalF ((retryUntilSuccessful 6 1 (queryProbe send)
                ⟨0, none⟩).1.responseBody.getD "") with
            | error e => exact ⟨_, rfl⟩
            | ok resp => exact ⟨_, rfl⟩
  · unfold QueryPermissions singleNetwork
    try dsimp only
    by_cases hc : c.overrideHeaderValue = ""
    · rw [if_neg (by simp [hc])]
      try dsimp only
      cases hm : marshalQ (queryRequestOf resource action opts) with
      | error e => exact ⟨_, rfl⟩
      | ok rb =>
        try dsimp only
        cases hr : (retryUntilSuccessful 6 1 (queryProbe send) ⟨0, none⟩).2.1 with
        | some e => exact ⟨_, rfl⟩
        | none =>
          try dsimp only
          cases hu : unmarshalQ ((retryUntilSuccessful 6 1 (queryProbe send)
              ⟨0, none⟩).1.responseBody.getD "") with
          | error e => exact ⟨_, rfl⟩
          | ok resp => exact ⟨_, rfl⟩
    · rw [if_pos hc]
      try dsimp only
      by_cases ho : opts.OverrideHeaderValue = c.overrideHeaderValue
      · rw [if_pos ho]
        exact ⟨_, rfl⟩
      · rw [if_neg ho]
        cases hm : marshalQ (queryRequestOf resource action opts) with
        | error e => exact ⟨_, rfl⟩
        | ok rb =>
          try dsimp only
          cases hr : (retryUntilSuccessful 6 1 (queryProbe send) ⟨0, none⟩).2.1 with
          | some e => exact ⟨_, rfl⟩
          | none =>
            try dsimp only
            cases hu : unmarshalQ ((retryUntilSuccessful 6 1 (queryProbe send)
                ⟨0, none⟩).1.responseBody.getD "") with
            | error e => exact ⟨_, rfl⟩
            | ok resp => exact ⟨_, rfl⟩

/-- C10: the successful batch result depends only on membership of each
requested resource in the decoded allowed subset: two runs whose decoded
subsets agree on membership over the requested resources return the same
pair, whatever the order, duplication or extraneous entries of the
subsets. -/
theorem C10_membership_invariance (c : HTTPClient)
    (marshalF : PermissionFilterRequest → Except String String)
    (send : Transport)
    (unmarshalA unmarshalB : String → Except String PermissionFilterResponse)
    (resources : List String) (action : Action) (opts : PermissionOptions)
    (bodyM body : String) (allowedA allowedB : List String) (i : Nat)
    (hnb : c.overrideHeaderValue = "" ∨ opts.OverrideHeaderValue ≠ c.overrideHeaderValue)
    (hm : marshalF (filterRequestOf resources action opts) = Except.ok bodyM)
    (hf : ∀ j, j < i → ∃ e, send j = Except.error e)
    (hs : send i = Except.ok body) (hi : i < 6)
    (huA : unmarshalA body = Except.ok ⟨allowedA⟩)
    (huB : unmarshalB body = Except.ok ⟨allowedB⟩)
    (hAB : ∀ r ∈ resources, allowedA.contains r = allowedB.contains r) :
    (QueryPermissionsMultiResources c marshalF send unmarshalA resources action
        (some opts)).ret =
      (QueryPermissionsMultiResources c marshalF send unmarshalB resources action
        (some opts)).ret := by
  rw [multi_nonbypass c marshalF send unmarshalA resources action opts hnb,
    multi_nonbypass c marshalF send unmarshalB resources action opts hnb,
    multiNetwork_success marshalF send unmarshalA resources action opts bodyM
      body allowedA i hm hf hs hi huA,
    multiNetwork_success marshalF send unmarshalB resources action opts bodyM
      body allowedB i hm hf hs hi huB]
  have : resources.map (fun res => allowedA.contains res) =
      resources.map (fun res => allowedB.contains res) :=
    List.map_congr_left hAB
  rw [this]

/-- C10 witness: the decoded subsets ["a", "c"] and ["z", "c", "a", "a"]
agree on membership over ["a", "b", "c"], so the two runs return the
same pair. -/
theorem C10_membership_invariance_witness :
    (QueryPermissionsMultiResources cNoOverride marshalOkF sendOk unmarshalAC
        ["a", "b", "c"] ActionRead (some optsPlain)).ret =
      (QueryPermissionsMultiResources cNoOverride marshalOkF sendOk unmarshalZCAA
        ["a", "b", "c"] ActionRead (some optsPlain)).ret :=
  C10_membership_invariance cNoOverride marshalOkF sendOk unmarshalAC
    unmarshalZCAA ["a", "b", "c"] ActionRead optsPlain "requestBody"
    "responseBody" ["a", "c"] ["z", "c", "a", "a"] 0 (Or.inl rfl) rfl
    (fun j hj => absurd hj (by omega)) rfl (by omega) rfl rfl
    (by decide)

end OpaClient
